import Mathlib

/-!
Shallow embedding of the tmux-plugin descriptor and callback-bridge layer
(src/src/lib.rs, facade src/src/tmux.rs).

Modelling conventions:
- C strings are modelled as their byte contents (`Bytes := List Nat`), the
  terminating NUL left implicit.
- Host pointers are modelled as natural addresses (`Ptr := Nat`).
- The host-compatible allocator (`libc::strdup` in the source) is modelled by
  an allocation list `Heap`: `strdup` appends a copy of the bytes and returns
  the fresh index as the new pointer, exactly one fresh allocation per call.
- A user-supplied callback body is a Lean function returning `Option α`:
  `some v` is a normal return with value `v`, `none` models an internal fault
  (a Rust panic) raised while the body runs. The bridges in src/src/lib.rs
  contain no `catch_unwind`, so a body fault propagates monadically through
  the bridge; `CbResult.panicked` marks an invocation whose unwind escaped
  the `extern "C"` boundary.
- The raw binding module `tmux_bindings` is not part of the sources; the
  facade src/src/tmux.rs only re-exports its names. Struct fields that the
  bridge layer actually touches (`format_entry.value`, `cmd.args.argc`,
  `cmd.args.argv`, `cmd_retval`'s four constants, the `plugin` descriptor
  with its kind tag and payload union) are modelled here from those uses and
  from the spec's description of the external contract.
-/

namespace TmuxPlugin

/-- Byte contents of a null-terminated C string (terminator implicit). -/
abbrev Bytes := List Nat

/-- A host pointer, modelled as a natural address. -/
abbrev Ptr := Nat

/-- Bytes of an ASCII string literal, for concrete test inputs. -/
def strBytes (s : String) : Bytes :=
  s.toList.map Char.toNat

/-- The allocation state of the host-compatible allocator: the list of live
allocations, a pointer being an index into it. -/
abbrev Heap := List Bytes

/-- Reading the allocation a pointer refers to. -/
def heapGet (h : Heap) (p : Ptr) : Option Bytes :=
  h.get? p

/-- Model of `libc::strdup`: place a copy of the byte sequence into a fresh
allocation of the host-compatible allocator and return its pointer. -/
def strdup (s : Bytes) (h : Heap) : Ptr × Heap :=
  (h.length, h ++ [s])

/-- Outcome of one bridge invocation as observed by the host: `ok` is a
normal return; `panicked` records that an internal fault of the user body
unwound past the bridge (the bridges install no handler). -/
inductive CbResult (α : Type) where
  | ok : α → CbResult α
  | panicked : CbResult α
deriving DecidableEq

/-- Host memory reachable through a notify-entry pointer; the notify body may
rewrite it arbitrarily. -/
abbrev HostMem := Ptr → Option Bytes

/-- The `value` slot of `struct format_entry`; the only field of the raw
binding struct the bridge layer touches (`(*fe).value = dup`). -/
structure format_entry where
  value : Option Ptr
deriving DecidableEq

/-- Fields of `cmd.args` that `cmd_exec` reads: the `argc`/`argv` pair.
`argv` is the host's argument array, valid at indices below `argc`. -/
structure args where
  argc : Nat
  argv : Nat → Bytes

/-- The command handle `*mut tmux::cmd` as `cmd_exec` uses it. -/
structure cmd where
  args : args

/-- The four command return statuses re-exported by the facade
(src/src/tmux.rs lines 29-33). Modelled from the spec: the numeric enum
values live in the absent `tmux_bindings` module; the facade re-exports
exactly these four constants and the spec fixes the set
{NORMAL, ERROR, WAIT, STOP}. -/
inductive cmd_retval where
  | CMD_RETURN_ERROR : cmd_retval
  | CMD_RETURN_NORMAL : cmd_retval
  | CMD_RETURN_WAIT : cmd_retval
  | CMD_RETURN_STOP : cmd_retval
deriving DecidableEq

/-- Bridge generated by `format_plugin!` (`plugin_format_cb`): run the user
body on the two host pointers, `strdup` the returned C string, and write the
duplicate's pointer into the entry's `value` slot. A body fault (`none`)
propagates: the macro expansion has no handler. -/
def plugin_format_cb (body : Ptr → Ptr → Option Bytes)
    (ft fe : Ptr) (entry : format_entry) (h : Heap) :
    CbResult (format_entry × Heap) :=
  match body ft fe with
  | none => CbResult.panicked
  | some ret =>
    let d := strdup ret h
    CbResult.ok ({ entry with value := some d.1 }, d.2)

/-- Bridge generated by `format_function_plugin!`
(`plugin_format_function_cb`): view the input C string (`CStr::from_ptr`),
run the user body on it, and return a `strdup` duplicate of the result.
A body fault propagates: the macro expansion has no handler. -/
def plugin_format_function_cb (body : Bytes → Option Bytes)
    (arg : Bytes) (h : Heap) : CbResult (Ptr × Heap) :=
  match body arg with
  | none => CbResult.panicked
  | some ret => CbResult.ok (strdup ret h)

/-- Bridge generated by `notification_plugin!` (`notify_cb`): it calls the
user body on the very notify-entry pointer it received and returns nothing;
the invocation's whole effect is the body's effect on host memory. -/
def notify_cb (body : Ptr → HostMem → Option HostMem)
    (ne : Ptr) (st : HostMem) : CbResult HostMem :=
  match body ne st with
  | none => CbResult.panicked
  | some st2 => CbResult.ok st2

/-- The argument sequence `cmd_exec` exposes to the user body:
`slice::from_raw_parts(args.argv, args.argc)` mapped through
`CStr::from_ptr`, i.e. exactly the first `argc` entries of `argv`, in
order, each a borrowed view of that argument's bytes. -/
def cmdArgvSeq (c : cmd) : List Bytes :=
  (List.range c.args.argc).map c.args.argv

/-- Demand-driven access into the exposed argument iterator: the item the
lazily produced sequence yields at position `i`, without materialising the
arguments (the source iterator is `argv.iter().map(...)`, never collected). -/
def cmdArgNth (c : cmd) (i : Nat) : Option Bytes :=
  if i < c.args.argc then some (c.args.argv i) else none

/-- Bridge generated by `cmd_plugin!` (`cmd_exec`): build the argument
sequence from the handle's `argc`/`argv` pair, run the user body on the
handle and that sequence, and hand its status straight back to the host.
The queue-item pointer `_item` is passed through unused. A body fault
propagates: the macro expansion has no handler. -/
def cmd_exec (body : cmd → List Bytes → Option cmd_retval)
    (c : cmd) (_item : Ptr) : CbResult cmd_retval :=
  match body c (cmdArgvSeq c) with
  | none => CbResult.panicked
  | some r => CbResult.ok r

/-- The descriptor kind tags dispatched by `__plugin!`. Modelled from the
spec: the numeric constants `FORMAT_PLUGIN`, `FORMAT_FUNCTION_PLUGIN`,
`NOTIFICATION_PLUGIN`, `CMD_PLUGIN` live in the absent `tmux_bindings`
module; the spec fixes a closed set of kinds, one tag per builder. (The
facade also re-exports `MULTI_PLUGIN`, for which no builder or bridge
exists in this layer; it is omitted.) -/
inductive plugin_type where
  | FORMAT_PLUGIN : plugin_type
  | FORMAT_FUNCTION_PLUGIN : plugin_type
  | NOTIFICATION_PLUGIN : plugin_type
  | CMD_PLUGIN : plugin_type
deriving DecidableEq

/-- Payload struct `tmux::format_plugin`: variable name and the bridge. -/
structure format_plugin where
  name : Bytes
  cb : Option (Ptr → Ptr → format_entry → Heap → CbResult (format_entry × Heap))

/-- Payload struct `tmux::function_plugin`: function name and the bridge. -/
structure function_plugin where
  name : Bytes
  cb : Option (Bytes → Heap → CbResult (Ptr × Heap))

/-- Payload struct `tmux::notification_plugin`: the hook event this
registration is filtered to (`none` models a null `event` pointer, i.e. a
global registration) and the bridge. -/
structure notification_plugin where
  event : Option Bytes
  cb : Option (Ptr → HostMem → CbResult HostMem)

/-- The `args` sub-struct `tmux::cmd_entry__bindgen_ty_1` as the cmd builder
fills it: empty template and the numeric argument bounds. -/
structure cmd_entry__bindgen_ty_1 where
  template : Bytes
  lower : Int
  upper : Int

/-- The `tmux::cmd_entry_flag` struct as the cmd builder fills it. -/
structure cmd_entry_flag where
  flag : Int
  type_ : Int
  flags : Int

/-- Payload struct `tmux::cmd_entry` as the cmd builder fills it. -/
structure cmd_entry where
  name : Bytes
  alias_ : Bytes
  args : cmd_entry__bindgen_ty_1
  usage : Bytes
  source : cmd_entry_flag
  target : cmd_entry_flag
  flags : Int
  exec : Option (cmd → Ptr → CbResult cmd_retval)

/-- The payload union `tmux::plugin__bindgen_ty_1` (`plugin_inner` in the
facade). A union holds exactly one populated variant; the constructor
records which field the builder populated. -/
inductive plugin_inner where
  | format : format_plugin → plugin_inner
  | function : function_plugin → plugin_inner
  | notify : notification_plugin → plugin_inner
  | cmd : cmd_entry → plugin_inner

/-- The descriptor `tmux::plugin` that `__plugin!` emits at the `plugin`
symbol: kind tag plus payload union. -/
structure plugin where
  type_ : plugin_type
  __bindgen_anon_1 : plugin_inner

/-- The tag that matches a payload variant: which constant `__plugin!`'s
dispatch arms pair with each union field. -/
def payloadTag : plugin_inner → plugin_type
  | plugin_inner.format _ => plugin_type.FORMAT_PLUGIN
  | plugin_inner.function _ => plugin_type.FORMAT_FUNCTION_PLUGIN
  | plugin_inner.notify _ => plugin_type.NOTIFICATION_PLUGIN
  | plugin_inner.cmd _ => plugin_type.CMD_PLUGIN

/-- Descriptor emitted by `format_plugin!`: `__plugin!(format, ...)`, i.e.
tag `FORMAT_PLUGIN` with the `format` union field holding the name and
`Some(plugin_format_cb)`. -/
def mk_format_plugin (name : Bytes) (body : Ptr → Ptr → Option Bytes) : plugin :=
  { type_ := plugin_type.FORMAT_PLUGIN,
    __bindgen_anon_1 := plugin_inner.format
      { name := name, cb := some (plugin_format_cb body) } }

/-- Descriptor emitted by `format_function_plugin!`:
`__plugin!(function, ...)`, i.e. tag `FORMAT_FUNCTION_PLUGIN` with the
`function` union field holding the name and
`Some(plugin_format_function_cb)`. -/
def mk_format_function_plugin (name : Bytes) (body : Bytes → Option Bytes) : plugin :=
  { type_ := plugin_type.FORMAT_FUNCTION_PLUGIN,
    __bindgen_anon_1 := plugin_inner.function
      { name := name, cb := some (plugin_format_function_cb body) } }

/-- Descriptor emitted by the two-argument arm of `notification_plugin!`:
`__plugin!(notify, ...)`, i.e. tag `NOTIFICATION_PLUGIN` with the `notify`
union field holding the event filter and `Some(notify_cb)`. -/
def mk_notification_plugin (event : Option Bytes)
    (body : Ptr → HostMem → Option HostMem) : plugin :=
  { type_ := plugin_type.NOTIFICATION_PLUGIN,
    __bindgen_anon_1 := plugin_inner.notify
      { event := event, cb := some (notify_cb body) } }

/-- Descriptor emitted by the one-argument (global) arm of
`notification_plugin!`: the arm literally re-invokes the macro with
`::std::ptr::null()` as the event. -/
def mk_notification_plugin_global (body : Ptr → HostMem → Option HostMem) : plugin :=
  mk_notification_plugin none body

/-- Descriptor emitted by the two-callback-argument arm of `cmd_plugin!`:
`__plugin!(cmd, ...)`, i.e. tag `CMD_PLUGIN` with the `cmd` union field
holding name, alias, usage, the argument bounds, zeroed flag structs and
`Some(cmd_exec)`. -/
def mk_cmd_plugin (name alias_ usage : Bytes) (argsmin argsmax : Int)
    (body : cmd → List Bytes → Option cmd_retval) : plugin :=
  { type_ := plugin_type.CMD_PLUGIN,
    __bindgen_anon_1 := plugin_inner.cmd
      { name := name,
        alias_ := alias_,
        args := { template := [], lower := argsmin, upper := argsmax },
        usage := usage,
        source := { flag := 0, type_ := 0, flags := 0 },
        target := { flag := 0, type_ := 0, flags := 0 },
        flags := 0,
        exec := some (cmd_exec body) } }

/-- Shape of the value a bridge hands back to the host, read off the
`extern "C"` signatures in src/src/lib.rs: `plugin_format_cb` and
`notify_cb` return nothing, `plugin_format_function_cb` returns a C string
pointer, `cmd_exec` returns a `cmd_retval` status. -/
inductive bridge_output where
  | void : bridge_output
  | cstring : bridge_output
  | status : bridge_output
deriving DecidableEq

/-- Return shape of each kind's bridge. -/
def bridgeOutput : plugin_type → bridge_output
  | plugin_type.FORMAT_PLUGIN => bridge_output.void
  | plugin_type.FORMAT_FUNCTION_PLUGIN => bridge_output.cstring
  | plugin_type.NOTIFICATION_PLUGIN => bridge_output.void
  | plugin_type.CMD_PLUGIN => bridge_output.status

/-! ### User-logic models

The crate docs give example callback bodies; the spec's testable properties
exercise the bridges with them. These are models of such user-supplied
bodies (plugin-author code, not bridge code). -/

/-- Whether a byte is a UTF-8 continuation byte (0x80-0xBF). -/
def isUtf8Cont (b : Nat) : Bool :=
  decide (0x80 ≤ b) && decide (b ≤ 0xBF)

/-- Fuel-indexed UTF-8 validity check over a byte sequence, following the
RFC 3629 well-formedness table (as Rust's `str`-conversion used by the
documented bodies enforces). Each step consumes at least one byte, so fuel
equal to the length suffices. -/
def utf8ValidAux : Nat → Bytes → Bool
  | _, [] => true
  | 0, _ :: _ => false
  | fuel + 1, b :: rest =>
    if b ≤ 0x7F then
      utf8ValidAux fuel rest
    else if decide (0xC2 ≤ b) && decide (b ≤ 0xDF) then
      match rest with
      | c1 :: r => isUtf8Cont c1 && utf8ValidAux fuel r
      | [] => false
    else if b == 0xE0 then
      match rest with
      | c1 :: c2 :: r =>
        decide (0xA0 ≤ c1) && decide (c1 ≤ 0xBF) && isUtf8Cont c2 &&
          utf8ValidAux fuel r
      | _ => false
    else if (decide (0xE1 ≤ b) && decide (b ≤ 0xEC)) ||
        (decide (0xEE ≤ b) && decide (b ≤ 0xEF)) then
      match rest with
      | c1 :: c2 :: r => isUtf8Cont c1 && isUtf8Cont c2 && utf8ValidAux fuel r
      | _ => false
    else if b == 0xED then
      match rest with
      | c1 :: c2 :: r =>
        decide (0x80 ≤ c1) && decide (c1 ≤ 0x9F) && isUtf8Cont c2 &&
          utf8ValidAux fuel r
      | _ => false
    else if b == 0xF0 then
      match rest with
      | c1 :: c2 :: c3 :: r =>
        decide (0x90 ≤ c1) && decide (c1 ≤ 0xBF) && isUtf8Cont c2 &&
          isUtf8Cont c3 && utf8ValidAux fuel r
      | _ => false
    else if decide (0xF1 ≤ b) && decide (b ≤ 0xF3) then
      match rest with
      | c1 :: c2 :: c3 :: r =>
        isUtf8Cont c1 && isUtf8Cont c2 && isUtf8Cont c3 && utf8ValidAux fuel r
      | _ => false
    else if b == 0xF4 then
      match rest with
      | c1 :: c2 :: c3 :: r =>
        decide (0x80 ≤ c1) && decide (c1 ≤ 0x8F) && isUtf8Cont c2 &&
          isUtf8Cont c3 && utf8ValidAux fuel r
      | _ => false
    else
      false

/-- Whether a byte sequence is well-formed UTF-8. -/
def utf8Valid (l : Bytes) : Bool :=
  utf8ValidAux l.length l

/-- Whether a byte is ASCII whitespace. -/
def isSpaceByte (b : Nat) : Bool :=
  b == 32 || (decide (9 ≤ b) && decide (b ≤ 13))

/-- Drop leading and trailing ASCII whitespace from a byte sequence. -/
def asciiTrim (l : Bytes) : Bytes :=
  ((l.dropWhile isSpaceByte).reverse.dropWhile isSpaceByte).reverse

/-- Model of the `trim` body from the crate docs: a trimming transform that
reports a fixed fallback string on invalid UTF-8 input, and never faults. -/
def trim_body_model (arg : Bytes) : Option Bytes :=
  if utf8Valid arg then some (asciiTrim arg)
  else some (strBytes "Invalid UTF-8 in input")

/-- A format body whose computation faults (panics) on every input. -/
def panickingFormatBody : Ptr → Ptr → Option Bytes :=
  fun _ _ => none

/-- A cmd body whose computation faults (panics) on every input. -/
def panickingCmdBody : cmd → List Bytes → Option cmd_retval :=
  fun _ _ => none

/-! ### Claims -/

/-- C1: the spec claims every bridge intercepts an internal fault of the
user computation at the callback boundary and substitutes the kind's
deterministic fallback. The code does not: none of the generated bridges
installs a handler, so a fault in the body propagates past the `extern "C"`
boundary. At a panicking format body, `plugin_format_cb` ends panicked
instead of writing the empty-string fallback, and at a panicking cmd body,
`cmd_exec` ends panicked instead of returning the ERROR status. -/
theorem fault_propagates_past_bridge :
    plugin_format_cb panickingFormatBody 0 0 { value := none } [] =
      CbResult.panicked ∧
    cmd_exec panickingCmdBody { args := { argc := 0, argv := fun _ => [] } } 0 =
      CbResult.panicked :=
  ⟨rfl, rfl⟩

/-- C2: each builder pairs its kind tag with the matching payload union
field: `format_plugin!` emits tag FORMAT_PLUGIN with the `format` field
populated, `format_function_plugin!` emits FORMAT_FUNCTION_PLUGIN with
`function`, `notification_plugin!` emits NOTIFICATION_PLUGIN with `notify`,
and `cmd_plugin!` emits CMD_PLUGIN with `cmd`; in every case the tag equals
the tag matching the populated variant, so no cross-kind mismatch is
possible. -/
theorem builder_tag_matches_payload :
    (∀ n b, (mk_format_plugin n b).type_ = plugin_type.FORMAT_PLUGIN ∧
      payloadTag (mk_format_plugin n b).__bindgen_anon_1 =
        (mk_format_plugin n b).type_ ∧
      ∃ p, (mk_format_plugin n b).__bindgen_anon_1 = plugin_inner.format p) ∧
    (∀ n b, (mk_format_function_plugin n b).type_ =
        plugin_type.FORMAT_FUNCTION_PLUGIN ∧
      payloadTag (mk_format_function_plugin n b).__bindgen_anon_1 =
        (mk_format_function_plugin n b).type_ ∧
      ∃ p, (mk_format_function_plugin n b).__bindgen_anon_1 =
        plugin_inner.function p) ∧
    (∀ e b, (mk_notification_plugin e b).type_ =
        plugin_type.NOTIFICATION_PLUGIN ∧
      payloadTag (mk_notification_plugin e b).__bindgen_anon_1 =
        (mk_notification_plugin e b).type_ ∧
      ∃ p, (mk_notification_plugin e b).__bindgen_anon_1 =
        plugin_inner.notify p) ∧
    (∀ n a u lo hi b, (mk_cmd_plugin n a u lo hi b).type_ =
        plugin_type.CMD_PLUGIN ∧
      payloadTag (mk_cmd_plugin n a u lo hi b).__bindgen_anon_1 =
        (mk_cmd_plugin n a u lo hi b).type_ ∧
      ∃ p, (mk_cmd_plugin n a u lo hi b).__bindgen_anon_1 =
        plugin_inner.cmd p) := by
  refine ⟨fun n b => ?_, fun n b => ?_, fun e b => ?_, fun n a u lo hi b => ?_⟩ <;>
    exact ⟨rfl, rfl, _, rfl⟩

/-- C3: when the user body returns a C string, the Format bridge `strdup`s
it and writes the duplicate's pointer into the entry's `value` slot: the
invocation succeeds, `value` holds the fresh pointer, the fresh allocation
holds exactly the body's bytes, and that pointer was not a live allocation
before the call (so it does not point into the user's own value). -/
theorem format_cb_writes_fresh_strdup
    (body : Ptr → Ptr → Option Bytes) (ft fe : Ptr) (entry : format_entry)
    (h : Heap) (s : Bytes) (hb : body ft fe = some s) :
    plugin_format_cb body ft fe entry h =
      CbResult.ok ({ entry with value := some h.length }, h ++ [s]) ∧
    heapGet (h ++ [s]) h.length = some s ∧
    heapGet h h.length = none := by
  refine ⟨?_, ?_, ?_⟩
  · simp [plugin_format_cb, hb, strdup]
  · simp [heapGet]
  · simp [heapGet]

/-- Closed instance of `format_cb_writes_fresh_strdup` at a concrete body
returning the byte string "h" on the empty heap. -/
theorem format_cb_writes_fresh_strdup_witness :
    plugin_format_cb (fun _ _ => some [104]) 0 0 { value := none } [] =
      CbResult.ok ({ value := some 0 }, [[104]]) ∧
    heapGet [[104]] 0 = some [104] ∧
    heapGet ([] : Heap) 0 = none :=
  format_cb_writes_fresh_strdup (fun _ _ => some [104]) 0 0 { value := none }
    [] [104] rfl

/-- C4: the Function bridge applies the user body to a view of exactly the
input bytes and returns a host-allocator duplicate of the body's result:
the returned pointer is fresh and its allocation holds the body's bytes.
In particular the trimming transform modelled from the crate docs maps
input "  hello  " to output "hello", and maps an input containing the
invalid UTF-8 byte 0xFF to the literal fallback string. -/
theorem function_cb_duplicates_result :
    (∀ (body : Bytes → Option Bytes) (arg : Bytes) (h : Heap) (s : Bytes),
      body arg = some s →
      plugin_format_function_cb body arg h = CbResult.ok (h.length, h ++ [s]) ∧
      heapGet (h ++ [s]) h.length = some s ∧
      heapGet h h.length = none) ∧
    plugin_format_function_cb trim_body_model (strBytes "  hello  ") [] =
      CbResult.ok (0, [strBytes "hello"]) ∧
    plugin_format_function_cb trim_body_model [0xFF] [] =
      CbResult.ok (0, [strBytes "Invalid UTF-8 in input"]) := by
  refine ⟨fun body arg h s hb => ⟨?_, ?_, ?_⟩, ?_, ?_⟩
  · simp [plugin_format_function_cb, hb, strdup]
  · simp [heapGet]
  · simp [heapGet]
  · rfl
  · rfl

/-- Closed instance of `function_cb_duplicates_result` at the identity body
on input "a" and the empty heap. -/
theorem function_cb_duplicates_result_witness :
    plugin_format_function_cb (fun a => some a) [97] [] =
      CbResult.ok (0, [[97]]) ∧
    heapGet [[97]] 0 = some [97] ∧
    heapGet ([] : Heap) 0 = none :=
  function_cb_duplicates_result.1 (fun a => some a) [97] [] [97] rfl

/-- A concrete command handle carrying the two arguments "a" and "b". -/
def cmdHandleAB : cmd :=
  { args := { argc := 2, argv := fun i => if i = 0 then strBytes "a" else strBytes "b" } }

/-- C5: the argument sequence `cmd_exec` exposes to the user body yields
exactly `argc` items, the i-th being a view of `argv[i]`; demand-driven
access (`cmdArgNth`, modelling the uncollected iterator) agrees; and for
the concrete arguments ["a", "b"] the sequence is exactly those two items
in order. -/
theorem cmd_args_exact_in_order (c : cmd) :
    (cmdArgvSeq c).length = c.args.argc ∧
    (∀ i, i < c.args.argc →
      (cmdArgvSeq c).get? i = some (c.args.argv i) ∧
      cmdArgNth c i = some (c.args.argv i)) ∧
    cmdArgvSeq cmdHandleAB = [strBytes "a", strBytes "b"] := by
  refine ⟨?_, fun i hi => ⟨?_, ?_⟩, ?_⟩
  · simp [cmdArgvSeq]
  · simp [cmdArgvSeq, List.get?_eq_getElem?, List.getElem?_map,
      List.getElem?_range, hi]
  · simp [cmdArgNth, hi]
  · rfl

/-- Closed instance of `cmd_args_exact_in_order` at a two-argument handle,
reading the first item. -/
theorem cmd_args_exact_in_order_witness :
    (cmdArgvSeq cmdHandleAB).get? 0 = some (cmdHandleAB.args.argv 0) ∧
    cmdArgNth cmdHandleAB 0 = some (cmdHandleAB.args.argv 0) :=
  (cmd_args_exact_in_order cmdHandleAB).2.1 0 (by decide)

/-- C6: when the user body produces a status, `cmd_exec` returns exactly
that status to the host; the status type is the closed four-value set
{NORMAL, ERROR, WAIT, STOP}; and among the four plugin kinds the Cmd kind
is the only one whose bridge returns a structured status outcome. -/
theorem cmd_exec_returns_body_status :
    (∀ (body : cmd → List Bytes → Option cmd_retval) (c : cmd) (item : Ptr)
      (r : cmd_retval), body c (cmdArgvSeq c) = some r →
      cmd_exec body c item = CbResult.ok r) ∧
    (∀ r : cmd_retval, r = cmd_retval.CMD_RETURN_NORMAL ∨
      r = cmd_retval.CMD_RETURN_ERROR ∨ r = cmd_retval.CMD_RETURN_WAIT ∨
      r = cmd_retval.CMD_RETURN_STOP) ∧
    (∀ k, bridgeOutput k = bridge_output.status ↔
      k = plugin_type.CMD_PLUGIN) := by
  refine ⟨fun body c item r hb => ?_, fun r => ?_, fun k => ?_⟩
  · simp [cmd_exec, hb]
  · cases r <;> simp
  · cases k <;> simp [bridgeOutput]

/-- Closed instance of `cmd_exec_returns_body_status` at a body returning
the NORMAL status on an argument-free handle. -/
theorem cmd_exec_returns_body_status_witness :
    cmd_exec (fun _ _ => some cmd_retval.CMD_RETURN_NORMAL)
      { args := { argc := 0, argv := fun _ => [] } } 0 =
      CbResult.ok cmd_retval.CMD_RETURN_NORMAL :=
  cmd_exec_returns_body_status.1 (fun _ _ => some cmd_retval.CMD_RETURN_NORMAL)
    { args := { argc := 0, argv := fun _ => [] } } 0
    cmd_retval.CMD_RETURN_NORMAL rfl

/-- C7: the Notify bridge hands the user body the very notify-entry pointer
it received and returns no value of its own: when the body completes with
host memory `st2`, the invocation's outcome is exactly `st2`, the bridge
itself adding no filtering, marshalling or duplication (it reads neither
the entry nor the heap). -/
theorem notify_cb_passes_through
    (body : Ptr → HostMem → Option HostMem) (ne : Ptr) (st st2 : HostMem)
    (hb : body ne st = some st2) :
    notify_cb body ne st = CbResult.ok st2 := by
  simp [notify_cb, hb]

/-- Closed instance of `notify_cb_passes_through` at the body that leaves
host memory unchanged. -/
theorem notify_cb_passes_through_witness :
    notify_cb (fun _ m => some m) 0 (fun _ => none) =
      CbResult.ok (fun _ => none) :=
  notify_cb_passes_through (fun _ m => some m) 0 (fun _ => none)
    (fun _ => none) rfl

/-- C9: the one-argument (global) arm of `notification_plugin!` expands to
the two-argument arm applied to a null event pointer: for every body both
produce the same descriptor, bridge included, and the global descriptor's
payload carries `event = none` (the null encoding by which the host tells
an unfiltered hook from an event-filtered one). -/
theorem notification_global_eq_named_null :
    ∀ body, mk_notification_plugin_global body =
      mk_notification_plugin none body ∧
    (mk_notification_plugin_global body).__bindgen_anon_1 =
      plugin_inner.notify { event := none, cb := some (notify_cb body) } :=
  fun _ => ⟨rfl, rfl⟩

/-! ### Macro-expansion model for the one-callback arm of `cmd_plugin!`

`cmd_plugin!`'s first arm re-invokes the macro, rewriting the user's
closure argument `|$self| $body` to the token sequence `|$self: ident,
_args| $body` (src/src/lib.rs line 225). In a macro transcriber `$self` is
substituted and `: ident` are literal tokens, so the emitted closure
argument carries a stray `: ident` between the first identifier and the
comma. The model below records the closure-argument token sequences and
the two arms' matchers for that position. -/

/-- Tokens of the closure argument position of `cmd_plugin!`. -/
inductive Tok where
  | pipe : Tok
  | comma : Tok
  | colon : Tok
  | ident : String → Tok
  | block : Tok
deriving DecidableEq

/-- Closure-argument tokens the one-callback arm emits in its recursive
invocation, for a captured self-identifier: `| self : ident , _args |`
followed by the body block. -/
def cmdPluginOneArmEmitted (selfIdent : String) : List Tok :=
  [Tok.pipe, Tok.ident selfIdent, Tok.colon, Tok.ident "ident", Tok.comma,
    Tok.ident "_args", Tok.pipe, Tok.block]

/-- Closure-argument tokens the delegation plainly intends:
`| self , _args |` followed by the body block. -/
def cmdPluginIntendedEmission (selfIdent : String) : List Tok :=
  [Tok.pipe, Tok.ident selfIdent, Tok.comma, Tok.ident "_args", Tok.pipe,
    Tok.block]

/-- Matcher of the first arm's closure pattern `|$self:ident| $body:block`. -/
def matchesOneCbArm : List Tok → Bool
  | [Tok.pipe, Tok.ident _, Tok.pipe, Tok.block] => true
  | _ => false

/-- Matcher of the second arm's closure pattern
`|$self:ident, $args:ident| $body:block`. -/
def matchesTwoCbArm : List Tok → Bool
  | [Tok.pipe, Tok.ident _, Tok.comma, Tok.ident _, Tok.pipe, Tok.block] =>
    true
  | _ => false

/-- C10: the one-callback arm of `cmd_plugin!` is meant to delegate to the
two-callback-argument arm with the argument sequence ignored, but the token
sequence it actually emits (`|self: ident, _args| body`, the fragment
specifier having leaked into the transcriber) matches neither arm of the
macro, so the expansion fails to compile; the intended token sequence
(`|self, _args| body`) would have matched the two-argument arm. -/
theorem cmd_plugin_one_cb_arm_no_match :
    matchesOneCbArm (cmdPluginOneArmEmitted "cmd") = false ∧
    matchesTwoCbArm (cmdPluginOneArmEmitted "cmd") = false ∧
    matchesTwoCbArm (cmdPluginIntendedEmission "cmd") = true :=
  ⟨rfl, rfl, rfl⟩

end TmuxPlugin
